import Mathlib

/-!
Shallow embedding of the WSN-Simulation kernel (src/src/wsn_simulation):
the shared-medium model in `media.py`, the parameter validation in
`core.py`, the node radio state machine in `node/core.py` and the sink
flood trigger in `node/sink.py`. Python dicts become association lists
(lookup returns the most recent binding), Python sets become duplicate-free
lists with guarded insertion, floats become real numbers, and the global
`random()` stream is passed explicitly as the draw consumed by a call.
-/

namespace WSN

/-- Modelled from the spec: the file `wsn_simulation/message.py` is not under
`src/`. Spec section 3 describes the payload only as opaque message content;
section 4.3 and `node/sink.py` show the flood-beacon payload carrying a
flood identifier string (field `FLOOD_ID` of `FloodBeaconMessage`). -/
structure FloodBeaconMessage where
  FLOOD_ID : String
deriving DecidableEq

/-- Modelled from the spec: a payload is either a flood-beacon message or
some other opaque message content (spec section 3 treats payload as opaque;
identity comparison includes payload content, spec section 9). -/
inductive Payload where
  | floodBeacon (m : FloodBeaconMessage)
  | other (s : String)
deriving DecidableEq

/-- Modelled from the spec: the immutable on-air packet of spec section 3,
`{type: tag, src: NodeId, dst: NodeId (0 = broadcast), seq: integer,
payload}`; field names follow `generate_frame` in `node/core.py`
(`TYPE`, `SRC`, `DST`, `SEQ`, `PAYLOAD`). `wsn_simulation/message.py`
itself is not under `src/`. -/
structure Frame where
  TYPE : String
  SRC : Nat
  DST : Nat
  SEQ : Int
  PAYLOAD : Payload
deriving DecidableEq

/-- Modelled from the spec: `Frame.identity`, used by `Media._loss_handler`
(media.py:241, source comment: astuple method of dataclass) — the tuple of
all frame fields, i.e. canonical value equality over
{type, src, dst, seq, payload} (spec section 9). -/
def Frame.identity (f : Frame) : String × Nat × Nat × Int × Payload :=
  (f.TYPE, f.SRC, f.DST, f.SEQ, f.PAYLOAD)

/-- Transmission (media.py:367-378): couples a frame with the identity of
the transmitting node. -/
structure Transmission where
  frame : Frame
  sender_id : Nat
deriving DecidableEq

/-- MediaConfig (media.py:18-54), the fields the medium logic reads.
The simpy environment, the network handle and the unbounded store
capacity are passed explicitly where needed. -/
structure MediaConfig where
  base_loss_rate : ℝ := 0.6
  DEBUG_MEDIA : Bool := false
  ENABLE_CI : Bool := true

/-- NodeConfig (node/core.py:16-80), the fields the medium and the radio
state machine read. -/
structure NodeConfig where
  node_id : Nat
  node_posx : Int
  node_posy : Int
  node_hop : Nat := 0
  max_transmissions : Nat := 1
  guard_time : Int := 50
  radio_txdistance : ℝ := 1.5
  radio_channel : Int := 7

/-- Node (node/core.py:83-131): the configuration plus the per-node mutable
bookkeeping set up in `Node.__init__`. Python sets are represented as
duplicate-free lists, the times dict as an association list. -/
structure Node where
  config : NodeConfig
  flood_beacon_ids : List String := []
  flood_beacon_times : List (String × List Int) := []
  local_tx_count : Nat := 0
  radio_rx_enable : Bool := true

/-- Media state (media.py:86-90): the per-node pipes (a simpy Store is a
FIFO list of frames), the pending batch for the current tick, the
re-entrancy guard, and the per-sender last-transmission-time dict. -/
structure MediaState where
  node_pipes : List (Nat × List Frame) := []
  pending : List Transmission := []
  propagating : Bool := false
  last_tx_time : List (Nat × Int) := []

/-- Media._loss_handler (media.py:192-266). The debug logging and the
`senders` set computed only for the log message are omitted; `draw` is the
value of the single `random()` call the executed branch consumes (no
branch calls `random()` more than once). -/
noncomputable def lossHandler (cfg : MediaConfig) (transmissions : List Transmission)
    (draw : ℝ) : List Transmission :=
  match transmissions with
  | [] => []
  | [t] =>
    -- one transmission: static loss rate (media.py:221-231)
    if draw < cfg.base_loss_rate then [] else [t]
  | t :: _ :: _ =>
    if cfg.ENABLE_CI then
      -- media.py:241: identities = set of frame identities
      if 1 < ((transmissions.map (fun tx => tx.frame.identity)).dedup).length then
        -- destructive collision of non-identical signals (media.py:243-250)
        []
      else
        -- constructive interference of identical signals (media.py:251-263)
        let k := transmissions.length
        let effective_loss : ℝ := cfg.base_loss_rate ^ Real.logb 2 ((k : ℝ) + 1)
        if draw < effective_loss then [] else [t]
    else
      -- destructive collisions when CI is disabled (media.py:264-266)
      []

/-- Euclidean distance between two node positions, `math.dist` applied to
`node_pos` pairs (media.py:282, node/core.py:71-80). -/
noncomputable def nodeDist (a b : NodeConfig) : ℝ :=
  Real.sqrt (((a.node_posx : ℝ) - (b.node_posx : ℝ)) ^ 2 +
    ((a.node_posy : ℝ) - (b.node_posy : ℝ)) ^ 2)

/-- Media._in_range (media.py:268-293): the receiver must be within the
transmission distance of the sender. -/
noncomputable def inRange (sender receiver : Node) : Bool :=
  if nodeDist sender.config receiver.config > sender.config.radio_txdistance then
    false
  else
    true

/-- Media._on_channel (media.py:295-314): sender and receiver must share the
radio channel. -/
def onChannel (sender receiver : Node) : Bool :=
  if receiver.config.radio_channel != sender.config.radio_channel then
    false
  else
    true

/-- Media._propagate (media.py:148-190). `net` is
`NetworkManager.get_node` (manager.py:101-122), assumed defined on every
id appearing in the pipes and the pending batch; `draw` gives, per
receiver id, the value of the one `random()` call `_loss_handler` may
consume for that receiver (the source consumes a global stream, one call
per receiver at most). The pending batch is cleared and the propagating
guard reset; the last-transmission-time dict is not touched by the
source. -/
noncomputable def propagate (cfg : MediaConfig) (net : Nat → Node)
    (st : MediaState) (draw : Nat → ℝ) : MediaState :=
  let sender_ids := st.pending.map Transmission.sender_id
  { st with
    node_pipes := st.node_pipes.map (fun p =>
      if p.1 ∈ sender_ids then
        -- half-duplex: cannot tx and rx in one slot (media.py:173-175)
        p
      else
        let receiver := net p.1
        let rx := st.pending.filter (fun tx =>
          inRange (net tx.sender_id) receiver && onChannel (net tx.sender_id) receiver)
        (p.1, p.2 ++ (lossHandler cfg rx (draw p.1)).map Transmission.frame)),
    pending := [],
    propagating := false }

/-- Media.put (media.py:112-146). Raises when no pipes are registered;
suppresses a second transmission by the same sender within one tick;
otherwise records the transmission time, appends the transmission and,
when no propagation event is scheduled yet, sets the propagating guard
(the zero-delay resolution event itself lives in the simpy environment). -/
def put (st : MediaState) (frame : Frame) (transmitter_id : Nat) (now : Int) :
    Except String MediaState :=
  if st.node_pipes = [] then
    .error "There are no output pipes."
  else if st.last_tx_time.lookup transmitter_id = some now then
    -- only one message per transmitter allowed to be scheduled in a tick
    .ok st
  else
    let st1 := { st with
      last_tx_time := (transmitter_id, now) :: st.last_tx_time,
      pending := st.pending ++ [⟨frame, transmitter_id⟩] }
    if st1.propagating then .ok st1 else .ok { st1 with propagating := true }

/-- The media object as the caller sees it after `Media.put`: on a raise the
check precedes every mutation (media.py:129-130), so the state is the old
one. -/
def putRun (st : MediaState) (frame : Frame) (transmitter_id : Nat) (now : Int) :
    MediaState :=
  match put st frame transmitter_id now with
  | .ok s => s
  | .error _ => st

/-- validate_simulation_parameters (core.py:211-236), called as the first
statement of `main` (core.py:74-79), before the rng is seeded, before the
simpy environment exists and hence before any event is scheduled. -/
noncomputable def validate_simulation_parameters (max_transmissions : Int)
    (loss_rate : ℝ) (max_hops : Int) (guard_time : Int) : Except String Unit :=
  if max_transmissions < 0 then
    .error "transmission count must be positive integer greater or equal to 0"
  else if loss_rate < 0.0 ∨ loss_rate > 1.0 then
    .error "loss rate must be positive float smaller or equal to 1.0"
  else if max_hops < 1 then
    .error "hop count must be a positive integer greater or equal to 1"
  else if guard_time < 1 then
    .error "guard time must be positive integer greater or equal to 1"
  else
    .ok ()

/-- Node.send (node/core.py:211-244). Returns the node after the call, the
result of handing the frame to the medium, and whether the guard-time
re-enable process was started (`env.process(reenable_rx())` runs only when
the radio flag was enabled and `Media.put` returned). A disabled radio
makes the whole call a no-op. -/
def Node.send (n : Node) (media : MediaState) (frame : Frame) (now : Int) :
    Node × Except String MediaState × Bool :=
  if n.radio_rx_enable = false then
    (n, .ok media, false)
  else
    let n1 := { n with
      radio_rx_enable := false,
      local_tx_count := n.local_tx_count + 1 }
    match put media frame n.config.node_id now with
    | .ok m => (n1, .ok m, true)
    | .error e => (n1, .error e, false)

/-- Python set add: insert the element when absent. -/
def setInsert (s : List String) (x : String) : List String :=
  if x ∈ s then s else x :: s

/-- Python `d.setdefault(fid, set()).add(t)` on the flood-beacon-times dict
(node/core.py:305, node/sink.py:134). -/
def recordTime (m : List (String × List Int)) (fid : String) (t : Int) :
    List (String × List Int) :=
  match m.lookup fid with
  | some _ => m.map (fun p => if p.1 = fid then (p.1, if t ∈ p.2 then p.2 else t :: p.2) else p)
  | none => (fid, [t]) :: m

/-- Sink (node/sink.py): a node plus the flood sequence number, initialised
to -1 (node/sink.py:73). -/
structure Sink where
  node : Node
  msg_seq : Int := -1

/-- Sink.trigger_flood (node/sink.py:116-146). The flood identifier is the
result of `uuid.uuid4().hex`, which reads operating-system entropy and is
not derived from the `random`-module stream seeded in `main`
(core.py:80-87); it is therefore an explicit input `uuid4hex` here. The
method increments the sequence number, records the fresh id and the
current time, builds the broadcast FLOOD_BEACON frame and hands it to
`Node.send` (the retransmission process it also starts belongs to the
protocol layer). -/
def trigger_flood (s : Sink) (media : MediaState) (uuid4hex : String)
    (now : Int) : Sink × Except String MediaState × Bool :=
  let s1 : Sink := { s with msg_seq := s.msg_seq + 1 }
  let flood_id := uuid4hex
  let n1 : Node := { s1.node with
    flood_beacon_ids := setInsert s1.node.flood_beacon_ids flood_id,
    flood_beacon_times := recordTime s1.node.flood_beacon_times flood_id now }
  let frame : Frame := {
    TYPE := "FLOOD_BEACON",
    SRC := n1.config.node_id,
    DST := 0,
    SEQ := s1.msg_seq,
    PAYLOAD := Payload.floodBeacon ⟨flood_id⟩ }
  let r := Node.send n1 media frame now
  ({ s1 with node := r.1 }, r.2.1, r.2.2)

/-! Helper lemmas on `List.dedup` and `List.lookup`. -/

lemma dedup_of_all_eq {α : Type} [DecidableEq α] (x : α) :
    ∀ l : List α, l ≠ [] → (∀ a ∈ l, a = x) → l.dedup = [x]
  | [], h, _ => absurd rfl h
  | [a], _, hall => by
      have ha : a = x := hall a (by simp)
      simp [ha]
  | a :: b :: t, _, hall => by
      have IH : (b :: t).dedup = [x] :=
        dedup_of_all_eq x (b :: t) (by simp)
          (fun c hc => hall c (List.mem_cons_of_mem _ hc))
      have ha : a = x := hall a (by simp)
      have hb : b = x := hall b (by simp)
      have hmem : a ∈ b :: t := by simp [ha, hb]
      rw [List.dedup_cons_of_mem hmem, IH]

lemma one_lt_dedup_length {α : Type} [DecidableEq α] {l : List α} {a b : α}
    (ha : a ∈ l) (hb : b ∈ l) (hab : a ≠ b) : 1 < l.dedup.length := by
  rcases hd : l.dedup with _ | ⟨x, _ | ⟨y, tl⟩⟩
  · exact absurd (List.mem_dedup.mpr ha) (by simp [hd])
  · have ha2 : a ∈ l.dedup := List.mem_dedup.mpr ha
    have hb2 : b ∈ l.dedup := List.mem_dedup.mpr hb
    rw [hd] at ha2 hb2
    simp only [List.mem_singleton] at ha2 hb2
    exact absurd (ha2.trans hb2.symm) hab
  · simp [hd]

lemma lookup_cons_self (k : Nat) (v : Int) (l : List (Nat × Int)) :
    ((k, v) :: l).lookup k = some v := by
  simp [List.lookup]

lemma lookup_cons_ne (k a : Nat) (v : Int) (l : List (Nat × Int)) (h : a ≠ k) :
    ((k, v) :: l).lookup a = l.lookup a := by
  have hb : (a == k) = false := beq_eq_false_iff_ne.mpr h
  simp [List.lookup, hb]

/-! Concrete objects used by the witness and counterexample theorems. -/

/-- Default media configuration: base_loss_rate 0.6, CI enabled. -/
def cfgW : MediaConfig := {}

def frameW : Frame :=
  { TYPE := "FLOOD_BEACON", SRC := 1, DST := 0, SEQ := 0,
    PAYLOAD := Payload.floodBeacon ⟨"f1"⟩ }

def frameW2 : Frame :=
  { TYPE := "FLOOD_BEACON", SRC := 1, DST := 0, SEQ := 1,
    PAYLOAD := Payload.floodBeacon ⟨"f2"⟩ }

def txW1 : Transmission := ⟨frameW, 2⟩

def txW2 : Transmission := ⟨frameW, 3⟩

def txW3 : Transmission := ⟨frameW2, 3⟩

/-! C1 and C2: the loss and interference law of `Media._loss_handler`. -/

/-- C1: with interference modeling enabled (`ENABLE_CI`) and `k ≥ 2`
candidate transmissions all identical in frame content,
`Media._loss_handler` applies exactly the effective loss probability
`base_loss_rate ^ log2(k + 1)`: the single random draw decides delivery
(lost iff the draw falls below that threshold), and on success exactly one
logical copy of the frame is delivered. -/
theorem lossHandler_ci_identical (cfg : MediaConfig) (t : Transmission)
    (rest : List Transmission) (draw : ℝ)
    (hk : 2 ≤ (t :: rest).length)
    (hci : cfg.ENABLE_CI = true)
    (hid : ∀ a ∈ t :: rest, a.frame.identity = t.frame.identity) :
    lossHandler cfg (t :: rest) draw =
      if draw < cfg.base_loss_rate ^ Real.logb 2 (((t :: rest).length : ℝ) + 1)
      then [] else [t] := by
  rcases rest with _ | ⟨r, rest2⟩
  · simp at hk
  · have hded :
        ((t :: r :: rest2).map (fun tx => tx.frame.identity)).dedup
          = [t.frame.identity] := by
      apply dedup_of_all_eq
      · simp
      · intro a hamem
        rcases List.mem_map.mp hamem with ⟨tx, htx, rfl⟩
        exact hid tx htx
    simp only [lossHandler, hci, if_true, hded, List.length_cons,
      List.length_singleton]
    norm_num

/-- Witness for C1 at a concrete input: two transmissions of the same frame,
the default configuration and draw 0. -/
theorem lossHandler_ci_identical_witness :
    lossHandler cfgW [txW1, txW2] 0 =
      if (0 : ℝ) < cfgW.base_loss_rate
          ^ Real.logb 2 ((([txW1, txW2] : List Transmission).length : ℝ) + 1)
      then [] else [txW1] :=
  lossHandler_ci_identical cfgW txW1 [txW2] 0 (by decide) rfl (by decide)

/-- C2: with two or more candidate transmissions, if any two differ in frame
content or interference modeling is disabled, `Media._loss_handler`
delivers nothing, for every base loss rate and every random draw. -/
theorem lossHandler_destructive (cfg : MediaConfig) (t1 t2 : Transmission)
    (rest : List Transmission) (draw : ℝ)
    (h : cfg.ENABLE_CI = false ∨
      ∃ a ∈ t1 :: t2 :: rest, ∃ b ∈ t1 :: t2 :: rest,
        a.frame.identity ≠ b.frame.identity) :
    lossHandler cfg (t1 :: t2 :: rest) draw = [] := by
  rcases h with hci | ⟨a, hamem, b, hbmem, hab⟩
  · simp [lossHandler, hci]
  · cases hci : cfg.ENABLE_CI with
    | false => simp [lossHandler, hci]
    | true =>
      have hlen :
          1 < ((t1 :: t2 :: rest).map (fun tx => tx.frame.identity)).dedup.length :=
        one_lt_dedup_length
          (List.mem_map_of_mem (fun tx => tx.frame.identity) hamem)
          (List.mem_map_of_mem (fun tx => tx.frame.identity) hbmem) hab
      simp only [List.map_cons] at hlen
      simp [lossHandler, hci, hlen]

/-- Witness for C2 at a concrete input: two transmissions with distinct frame
content under the default configuration (CI enabled). -/
theorem lossHandler_destructive_witness :
    lossHandler cfgW [txW1, txW3] 0 = [] :=
  lossHandler_destructive cfgW txW1 txW3 [] 0
    (Or.inr ⟨txW1, by decide, txW3, by decide, by decide⟩)

/-! C3 and C6: per-receiver guarantees of `Media._propagate`. -/

/-- C3: half-duplex exclusion. A node whose id is among the sender ids of
the pending batch resolved this tick gets nothing delivered into its
channel endpoint by `Media._propagate`, for every draw, range and
channel. -/
theorem propagate_half_duplex (cfg : MediaConfig) (net : Nat → Node)
    (st : MediaState) (draw : Nat → ℝ) (i rid : Nat) (store : List Frame)
    (hp : st.node_pipes[i]? = some (rid, store))
    (hs : rid ∈ st.pending.map Transmission.sender_id) :
    (propagate cfg net st draw).node_pipes[i]? = some (rid, store) := by
  simp only [propagate]
  rw [List.getElem?_map, hp, Option.map_some']
  dsimp only
  rw [if_pos hs]

/-- Witness for C3: the single pending sender is node 1, which is also a
registered receiver; its pipe is unchanged by the resolution. -/
theorem propagate_half_duplex_witness :
    (propagate cfgW (fun _ => { config := { node_id := 1, node_posx := 0, node_posy := 0 } })
      { node_pipes := [(1, [])], pending := [⟨frameW, 1⟩] }
      (fun _ => 0)).node_pipes[0]? = some (1, []) :=
  propagate_half_duplex cfgW
    (fun _ => { config := { node_id := 1, node_posx := 0, node_posy := 0 } })
    { node_pipes := [(1, [])], pending := [⟨frameW, 1⟩] }
    (fun _ => 0) 0 1 [] (by decide) (by decide)

/-- C6: a receiver strictly farther than the transmission range from every
sender of the pending batch gets nothing delivered in that tick, for every
draw (the range filter is deterministic). -/
theorem propagate_out_of_range (cfg : MediaConfig) (net : Nat → Node)
    (st : MediaState) (draw : Nat → ℝ) (i rid : Nat) (store : List Frame)
    (hp : st.node_pipes[i]? = some (rid, store))
    (hfar : ∀ tx ∈ st.pending,
      (net tx.sender_id).config.radio_txdistance <
        nodeDist (net tx.sender_id).config (net rid).config) :
    (propagate cfg net st draw).node_pipes[i]? = some (rid, store) := by
  simp only [propagate]
  rw [List.getElem?_map, hp, Option.map_some']
  dsimp only
  by_cases hmem : rid ∈ st.pending.map Transmission.sender_id
  · rw [if_pos hmem]
  · rw [if_neg hmem]
    have hfilter : st.pending.filter (fun tx =>
        inRange (net tx.sender_id) (net rid) && onChannel (net tx.sender_id) (net rid))
          = [] := by
      rw [List.filter_eq_nil_iff]
      intro tx htx
      have hr : inRange (net tx.sender_id) (net rid) = false := by
        unfold inRange
        rw [if_pos (hfar tx htx)]
      simp [hr]
    rw [hfilter]
    simp [lossHandler]

/-- Concrete out-of-range receiver geometry for the C6 witness: the sender
sits at (0, 0), the receiver at (9, 0), distance 9 against range 1.5. -/
def nodeAt (nid : Nat) (x y : Int) : Node :=
  { config := { node_id := nid, node_posx := x, node_posy := y } }

def netW : Nat → Node := fun i => if i = 1 then nodeAt 1 9 0 else nodeAt 2 0 0

def stW6 : MediaState := { node_pipes := [(1, [])], pending := [⟨frameW, 2⟩] }

/-- Witness for C6: the receiver at distance 9 with range 1.5 receives
nothing. -/
theorem propagate_out_of_range_witness :
    (propagate cfgW netW stW6 (fun _ => 0)).node_pipes[0]? = some (1, []) :=
  propagate_out_of_range cfgW netW stW6 (fun _ => 0) 0 1 [] (by decide) (by
    intro tx htx
    have htx2 : tx = (⟨frameW, 2⟩ : Transmission) := by
      simpa [stW6] using htx
    subst htx2
    have hdist : nodeDist (netW 2).config (netW 1).config = 9 := by
      have h81 : nodeDist (netW 2).config (netW 1).config = Real.sqrt 81 := by
        unfold nodeDist netW nodeAt
        norm_num
      rw [h81, show (81 : ℝ) = 9 ^ 2 by norm_num]
      exact Real.sqrt_sq (by norm_num)
    rw [hdist]
    show (netW 2).config.radio_txdistance < 9
    norm_num [netW, nodeAt])

/-! C4, C7 and C8: the pending batch discipline of `Media.put` and
`Media._propagate`. -/

/-- Invariant of the current tick relating the pending batch to the
last-transmission-time dict: every pending transmission was stamped at the
current tick, and no sender contributed twice. At the start of a tick the
batch is empty, so the invariant holds. -/
def TickInv (now : Int) (st : MediaState) : Prop :=
  (∀ tx ∈ st.pending, st.last_tx_time.lookup tx.sender_id = some now) ∧
    (st.pending.map Transmission.sender_id).Nodup

/-- C4: `Media.put` keeps at most one pending transmission per sender id in
a tick. It preserves the tick invariant, a repeated call by a sender that
already transmitted this tick is a no-op, and every sender id occurs at
most once in the pending batch afterwards. -/
theorem put_one_per_sender_per_tick (st : MediaState) (frame : Frame)
    (tid : Nat) (now : Int) (hinv : TickInv now st) :
    TickInv now (putRun st frame tid now) ∧
    (st.last_tx_time.lookup tid = some now → putRun st frame tid now = st) ∧
    ∀ sid, ((putRun st frame tid now).pending.map Transmission.sender_id).count sid ≤ 1 := by
  have key : TickInv now (putRun st frame tid now) ∧
      (st.last_tx_time.lookup tid = some now → putRun st frame tid now = st) := by
    unfold putRun put
    by_cases hpipes : st.node_pipes = []
    · rw [if_pos hpipes]
      exact ⟨hinv, fun _ => rfl⟩
    · rw [if_neg hpipes]
      by_cases hlk : st.last_tx_time.lookup tid = some now
      · rw [if_pos hlk]
        exact ⟨hinv, fun _ => rfl⟩
      · rw [if_neg hlk]
        have htid : tid ∉ st.pending.map Transmission.sender_id := by
          intro hmem
          rcases List.mem_map.mp hmem with ⟨tx, htx, heq⟩
          exact hlk (heq ▸ hinv.1 tx htx)
        have hinv2 : TickInv now
            { st with
              last_tx_time := (tid, now) :: st.last_tx_time,
              pending := st.pending ++ [⟨frame, tid⟩] } := by
          constructor
          · intro tx htx
            rcases List.mem_append.mp htx with hold | hnew
            · by_cases hsame : tx.sender_id = tid
              · rw [hsame, lookup_cons_self]
              · rw [lookup_cons_ne tid tx.sender_id now st.last_tx_time hsame]
                exact hinv.1 tx hold
            · have : tx = ⟨frame, tid⟩ := by simpa using hnew
              rw [this, lookup_cons_self]
          · rw [List.map_append, List.nodup_append]
            refine ⟨hinv.2, by simp, ?_⟩
            intro a hmem hmem2
            have : a = tid := by simpa using hmem2
            exact htid (this ▸ hmem)
        dsimp only
        by_cases hprop : st.propagating
        · rw [if_pos hprop]
          exact ⟨hinv2, fun h => absurd h hlk⟩
        · rw [if_neg hprop]
          exact ⟨⟨hinv2.1, hinv2.2⟩, fun h => absurd h hlk⟩

  refine ⟨key.1, key.2, fun sid => ?_⟩
  exact List.nodup_iff_count_le_one.mp key.1.2 sid

def stW0 : MediaState := { node_pipes := [(1, [])] }

/-- Witness for C4: a first transmission at tick 0 on an empty batch. -/
theorem put_one_per_sender_per_tick_witness :
    TickInv 0 (putRun stW0 frameW 2 0) ∧
    (stW0.last_tx_time.lookup 2 = some 0 → putRun stW0 frameW 2 0 = stW0) ∧
    ∀ sid, ((putRun stW0 frameW 2 0).pending.map Transmission.sender_id).count sid ≤ 1 :=
  put_one_per_sender_per_tick stW0 frameW 2 0 ⟨by decide, by decide⟩

/-- C7 (amended): after `Media._propagate` returns, the pending batch is
empty and the medium is idle again (propagating flag cleared), while the
last-transmission-time dict is left exactly as it was, so the entries
recorded during the resolved tick persist. -/
theorem propagate_resets (cfg : MediaConfig) (net : Nat → Node)
    (st : MediaState) (draw : Nat → ℝ) :
    (propagate cfg net st draw).pending = [] ∧
    (propagate cfg net st draw).propagating = false ∧
    (propagate cfg net st draw).last_tx_time = st.last_tx_time :=
  ⟨rfl, rfl, rfl⟩

def stC7 : MediaState := { node_pipes := [(2, [])] }

/-- C7 counterexample: node 1 transmits at tick 5 (recording the entry
(1, 5) in the last-transmission-time dict); after the tick-5 resolution the
pending batch is empty and the medium idle, but the dict still contains the
tick-5 entry, contradicting the claim that resolution removes the entries
recorded during the tick. -/
theorem propagate_keeps_tick_entries :
    (propagate cfgW netW (putRun stC7 frameW 1 5) (fun _ => 0)).pending = [] ∧
    (propagate cfgW netW (putRun stC7 frameW 1 5) (fun _ => 0)).propagating = false ∧
    (propagate cfgW netW (putRun stC7 frameW 1 5) (fun _ => 0)).last_tx_time.lookup 1 = some 5 :=
  ⟨rfl, rfl, rfl⟩

/-- C8: `Media.put` fails exactly when no channel endpoint is registered,
and on failure the raise precedes every mutation, so the medium state is
unchanged. -/
theorem put_error_iff_no_pipes (st : MediaState) (frame : Frame)
    (tid : Nat) (now : Int) :
    ((∃ e, put st frame tid now = .error e) ↔ st.node_pipes = []) ∧
    (st.node_pipes = [] → putRun st frame tid now = st) := by
  constructor
  · constructor
    · rintro ⟨e, he⟩
      by_contra hne
      unfold put at he
      rw [if_neg hne] at he
      by_cases h2 : st.last_tx_time.lookup tid = some now
      · rw [if_pos h2] at he
        simp at he
      · rw [if_neg h2] at he
        dsimp only at he
        split at he <;> simp at he
    · intro h
      exact ⟨_, by unfold put; rw [if_pos h]⟩
  · intro h
    unfold putRun put
    rw [if_pos h]

/-- Witness for C8 at a concrete input: with no registered pipes the put
raises and the state stays as it was. -/
theorem put_error_iff_no_pipes_witness :
    (∃ e, put { } frameW 1 0 = .error e) ∧ putRun { } frameW 1 0 = { } :=
  ⟨(put_error_iff_no_pipes { } frameW 1 0).1.mpr rfl,
    (put_error_iff_no_pipes { } frameW 1 0).2 rfl⟩

/-! C9: parameter validation in `main`. -/

/-- C9: `validate_simulation_parameters`, the first statement of `main`
(run before the rng is seeded and before the simpy environment exists, so
before any event is scheduled), raises a configuration error exactly when
a parameter is out of range: loss rate below 0 or above 1, max hops below
1, guard time below 1, or a negative transmission count. -/
theorem validate_error_iff (mt : Int) (lr : ℝ) (mh gtime : Int) :
    (∃ e, validate_simulation_parameters mt lr mh gtime = .error e) ↔
      (lr < 0 ∨ 1 < lr ∨ mh < 1 ∨ gtime < 1 ∨ mt < 0) := by
  unfold validate_simulation_parameters
  by_cases h1 : mt < 0
  · rw [if_pos h1]
    simp [h1]
  · rw [if_neg h1]
    by_cases h2 : lr < 0.0 ∨ lr > 1.0
    · rw [if_pos h2]
      have h2n : lr < 0 ∨ 1 < lr := by
        rcases h2 with h | h
        · exact Or.inl (by linarith [h])
        · exact Or.inr (by linarith [h])
      simp [h2n.imp id Or.inl]
    · rw [if_neg h2]
      push_neg at h2
      have hlr0 : ¬ lr < 0 := by
        have := h2.1
        intro hc
        norm_num at this
        linarith
      have hlr1 : ¬ 1 < lr := by
        have := h2.2
        intro hc
        norm_num at this
        linarith
      by_cases h3 : mh < 1
      · rw [if_pos h3]
        simp [h3]
      · rw [if_neg h3]
        by_cases h4 : gtime < 1
        · rw [if_pos h4]
          simp [h4]
        · rw [if_neg h4]
          constructor
          · rintro ⟨e, he⟩
            simp at he
          · rintro (h | h | h | h | h) <;> first
              | exact absurd h hlr0
              | exact absurd h hlr1
              | exact absurd h h3
              | exact absurd h h4
              | exact absurd h h1

/-- Witness for C9 at concrete inputs: the default parameters of `main`
(max_transmissions 1, loss 0.6, hops 4, guard 100) validate cleanly, and a
negative loss rate is rejected. -/
theorem validate_error_iff_witness :
    (¬ ∃ e, validate_simulation_parameters 1 0.6 4 100 = .error e) ∧
    (∃ e, validate_simulation_parameters 1 (-1) 4 100 = .error e) :=
  ⟨fun h => by
      have := (validate_error_iff 1 0.6 4 100).mp h
      norm_num at this,
    (validate_error_iff 1 (-1) 4 100).mpr (Or.inl (by norm_num))⟩

/-! C5: seed determinism of a run versus the uuid-generated flood ids. -/

def sinkW : Sink :=
  { node := { config := { node_id := 1, node_posx := 0, node_posy := 0 } } }

def mediaW : MediaState := { node_pipes := [(1, []), (2, [])] }

/-- C5 counterexample: two runs with identical configuration, identical
seeded rng state and identical simulated time, in which `uuid.uuid4().hex`
returns different values (it reads operating-system entropy, which
`random.seed(rng_seed)` in `main` does not determine), leave different
flood-id bookkeeping at the sink, so the final per-node bookkeeping is not
identical across seeded runs. -/
theorem trigger_flood_ids_depend_on_uuid :
    (trigger_flood sinkW mediaW "aaaa" 100).1.node.flood_beacon_ids ≠
      (trigger_flood sinkW mediaW "bbbb" 100).1.node.flood_beacon_ids := by
  decide

/-- Projection of `Node.send`: the node after the call is the input node
when the radio is disabled, and otherwise the input node with the radio
locked and the transmission counter incremented, independently of the
medium outcome. -/
lemma Node.send_node (n : Node) (media : MediaState) (frame : Frame) (now : Int) :
    (Node.send n media frame now).1 =
      if n.radio_rx_enable = false then n
      else { n with radio_rx_enable := false, local_tx_count := n.local_tx_count + 1 } := by
  unfold Node.send
  by_cases h : n.radio_rx_enable = false
  · rw [if_pos h, if_pos h]
  · rw [if_neg h, if_neg h]
    dsimp only
    cases put media frame n.config.node_id now <;> rfl

/-- C5 (amended): between two executions of `Sink.trigger_flood` from the
same state, same medium and same tick that differ only in the uuid4
outcome, the sequence number and the transmission counter agree, the
recorded flood-id set is the old one with the uuid value inserted in
front, and the flood-id bookkeeping of the two executions coincides
exactly when the uuid values coincide — the seed plays no role in the
flood identifier. -/
theorem trigger_flood_uuid_dependence (s : Sink) (media : MediaState)
    (u1 u2 : String) (now : Int)
    (h1 : u1 ∉ s.node.flood_beacon_ids) (h2 : u2 ∉ s.node.flood_beacon_ids) :
    ((trigger_flood s media u1 now).1.msg_seq =
      (trigger_flood s media u2 now).1.msg_seq) ∧
    ((trigger_flood s media u1 now).1.node.local_tx_count =
      (trigger_flood s media u2 now).1.node.local_tx_count) ∧
    ((trigger_flood s media u1 now).1.node.flood_beacon_ids =
      u1 :: s.node.flood_beacon_ids) ∧
    (((trigger_flood s media u1 now).1.node.flood_beacon_ids =
      (trigger_flood s media u2 now).1.node.flood_beacon_ids) ↔ u1 = u2) := by
  have hids : ∀ u : String, u ∉ s.node.flood_beacon_ids →
      (trigger_flood s media u now).1.node.flood_beacon_ids =
        u :: s.node.flood_beacon_ids := by
    intro u hu
    unfold trigger_flood
    dsimp only
    rw [Node.send_node]
    by_cases h : ({ s.node with
        flood_beacon_ids := setInsert s.node.flood_beacon_ids u,
        flood_beacon_times := recordTime s.node.flood_beacon_times u now } : Node).radio_rx_enable = false
    · rw [if_pos h]
      dsimp only
      unfold setInsert
      rw [if_neg hu]
    · rw [if_neg h]
      dsimp only
      unfold setInsert
      rw [if_neg hu]
  have hcount : ∀ u : String,
      (trigger_flood s media u now).1.node.local_tx_count =
        (if s.node.radio_rx_enable = false then s.node.local_tx_count
          else s.node.local_tx_count + 1) := by
    intro u
    unfold trigger_flood
    dsimp only
    rw [Node.send_node]
    by_cases h : s.node.radio_rx_enable = false
    · rw [if_pos h, if_pos h]
    · rw [if_neg h, if_neg h]
  refine ⟨rfl, ?_, hids u1 h1, ?_⟩
  · rw [hcount u1, hcount u2]
  · rw [hids u1 h1, hids u2 h2]
    simp

/-- Witness for the amended C5 at concrete inputs: two fresh uuid values at
the initial sink state. -/
theorem trigger_flood_uuid_dependence_witness :
    ((trigger_flood sinkW mediaW "aaaa" 100).1.msg_seq =
      (trigger_flood sinkW mediaW "bbbb" 100).1.msg_seq) ∧
    ((trigger_flood sinkW mediaW "aaaa" 100).1.node.local_tx_count =
      (trigger_flood sinkW mediaW "bbbb" 100).1.node.local_tx_count) ∧
    ((trigger_flood sinkW mediaW "aaaa" 100).1.node.flood_beacon_ids =
      "aaaa" :: sinkW.node.flood_beacon_ids) ∧
    (((trigger_flood sinkW mediaW "aaaa" 100).1.node.flood_beacon_ids =
      (trigger_flood sinkW mediaW "bbbb" 100).1.node.flood_beacon_ids) ↔
        ("aaaa" : String) = "bbbb") :=
  trigger_flood_uuid_dependence sinkW mediaW "aaaa" "bbbb" 100
    (by decide) (by decide)

/-! C10: `Node.send` with a disabled radio. -/

/-- C10: while the radio receive flag is down (guard time after an own
transmission), `Node.send` is a complete no-op: the node is unchanged
(transmission counter and radio flag included), the medium receives
nothing, and no re-enable process is started. -/
theorem send_noop_when_radio_disabled (n : Node) (media : MediaState)
    (frame : Frame) (now : Int) (h : n.radio_rx_enable = false) :
    Node.send n media frame now = (n, .ok media, false) := by
  unfold Node.send
  rw [if_pos h]

def nodeOff : Node :=
  { config := { node_id := 3, node_posx := 0, node_posy := 0 },
    radio_rx_enable := false }

/-- Witness for C10 at a concrete input: a node inside its guard time. -/
theorem send_noop_when_radio_disabled_witness :
    Node.send nodeOff mediaW frameW 0 = (nodeOff, .ok mediaW, false) :=
  send_noop_when_radio_disabled nodeOff mediaW frameW 0 rfl

end WSN
